import Mathlib

/-!
Shallow embedding of `scripts/qre-analyzer/x12_278_qre_analyzer.py`, the
X12 278 X215 QRE analyzer, together with proofs of its specified
properties.  Python strings are modelled as lists of characters so that
the split/strip/join operations of the extractor can be reasoned about
inductively; Python exceptions (file read, list indexing) are modelled
with `Except` and `Option`.
-/

namespace QreAnalyzer

/-- Python strings are modelled as lists of characters. -/
abbrev Str := List Char

/-- Conversion of a Lean string literal into the character-list model. -/
def str (s : String) : Str := s.toList

/-- Validation severity levels (`class Severity(Enum)`, lines 22-26). -/
inductive Severity where
  | ERROR
  | WARNING
  | INFO
deriving DecidableEq, Repr, Inhabited

/-- Validation result for a single check (`@dataclass ValidationResult`,
lines 29-37).  The `context` mapping holds observed values keyed by field
name. -/
structure ValidationResult where
  severity : Severity
  code : String
  message : String
  segment : Option Str := none
  line_number : Option Nat := none
  context : List (String × Str) := []
deriving DecidableEq, Repr, Inhabited

/-- Complete analysis report (`@dataclass AnalysisReport`, lines 40-51). -/
structure AnalysisReport where
  file_path : String
  tr3_version : String
  is_valid : Bool
  error_count : Nat
  warning_count : Nat
  info_count : Nat
  results : List ValidationResult
  query_method : Option String := none
  segments_found : List Str := []
deriving DecidableEq, Repr

/-- The `validationRules` object of the configuration file. -/
structure ValidationRules where
  validateEnvelopes : Bool
deriving DecidableEq, Repr

/-- The `qreRequirements` object of the configuration file. -/
structure QreRequirements where
  requiredSegments : List Str
  minimalDataPrinciple : Bool
deriving DecidableEq, Repr

/-- The `errorHandling` object of the configuration file. -/
structure ErrorHandling where
  failOnWarnings : Bool
deriving DecidableEq, Repr

/-- The analyzer configuration (`self.config`), restricted to the keys the
analysis methods read. -/
structure Config where
  tr3Version : String
  validationRules : ValidationRules
  qreRequirements : QreRequirements
  errorHandling : ErrorHandling
deriving DecidableEq, Repr

/-- Python `s.split(sep)` for a one-character separator: splits at every
occurrence of the separator, keeping empty pieces. -/
def pySplit (sep : Char) (s : Str) : List Str := s.splitOn sep

/-- Python `s.strip()`: removes leading and trailing whitespace. -/
def pyStrip (s : Str) : Str :=
  (s.dropWhile Char.isWhitespace).rdropWhile Char.isWhitespace

/-- Python `s.startswith(pre)`. -/
def startswith (pre : Str) (s : Str) : Bool := pre.isPrefixOf s

/-- Python `s.endswith(suf)`. -/
def endswith (suf : Str) (s : Str) : Bool := suf.isSuffixOf s

/-- Lines 84-85 of `analyze_file`: split the content on the segment
terminator, strip each piece, and drop pieces that are empty after
stripping. -/
def extract_segments (content : Str) : List Str :=
  ((pySplit '~' content).map pyStrip).filter (fun s => !s.isEmpty)

/-- Line 90: `seg_id = segment.split('*')[0]`, the identifier of one
segment record. -/
def seg_id (segment : Str) : Str := (pySplit '*' segment).headD []

/-- Lines 88-91: the loop that appends the identifier of every non-empty
segment to `self.segments_found`. -/
def extract_seg_ids (segments : List Str) : List Str :=
  (segments.filter (fun s => !s.isEmpty)).map seg_id

/-- The ISA check of `_validate_envelopes` (lines 107-122). -/
def isa_check (segments : List Str) : List ValidationResult :=
  let isa_segments := segments.filter (startswith (str "ISA*"))
  if isa_segments.length = 0 then
    [{ severity := .ERROR, code := "ENV001",
       message := "Missing ISA segment (Interchange Control Header)",
       segment := some (str "ISA") }]
  else if 1 < isa_segments.length then
    let n := isa_segments.length
    [{ severity := .WARNING, code := "ENV002",
       message := s!"Multiple ISA segments found ({n})",
       segment := some (str "ISA") }]
  else []

/-- The GS check of `_validate_envelopes` (lines 124-132). -/
def gs_check (segments : List Str) : List ValidationResult :=
  let gs_segments := segments.filter (startswith (str "GS*"))
  if gs_segments.length = 0 then
    [{ severity := .ERROR, code := "ENV003",
       message := "Missing GS segment (Functional Group Header)",
       segment := some (str "GS") }]
  else []

/-- The ST check of `_validate_envelopes` (lines 134-159): the first
segment starting with `ST*` must carry transaction code `278` in its
second element, and its fourth element, when present, should end with
`X215`. -/
def st_check (segments : List Str) : List ValidationResult :=
  let st_segments := segments.filter (startswith (str "ST*"))
  if st_segments.length = 0 then
    [{ severity := .ERROR, code := "ENV004",
       message := "Missing ST segment (Transaction Set Header)",
       segment := some (str "ST") }]
  else
    let st_elements := pySplit '*' (st_segments.headD [])
    let code_results : List ValidationResult :=
      if 2 ≤ st_elements.length ∧ st_elements.getD 1 [] ≠ str "278" then
        let found := String.mk (st_elements.getD 1 [])
        [{ severity := .ERROR, code := "ENV005",
           message := s!"Invalid transaction code: expected 278, found {found}",
           segment := some (str "ST") }]
      else []
    let version_results : List ValidationResult :=
      if 4 ≤ st_elements.length ∧ endswith (str "X215") (st_elements.getD 3 []) = false then
        let found := String.mk (st_elements.getD 3 [])
        [{ severity := .WARNING, code := "ENV006",
           message := s!"Implementation guide version {found} may not be 005010X215",
           segment := some (str "ST"),
           context := [("version", st_elements.getD 3 [])] }]
      else []
    code_results ++ version_results

/-- `_validate_envelopes` (lines 102-159). -/
def validate_envelopes (cfg : Config) (segments : List Str) : List ValidationResult :=
  if !cfg.validationRules.validateEnvelopes then []
  else isa_check segments ++ gs_check segments ++ st_check segments

/-- The QRE001 finding emitted for a missing required segment. -/
def qre001 (sid : Str) : ValidationResult :=
  let name := String.mk sid
  { severity := .ERROR, code := "QRE001",
    message := s!"Missing required segment: {name}",
    segment := some sid }

/-- `_validate_required_segments` (lines 161-172): one ERROR per
configured required identifier that is absent from the identifier list,
in configured order. -/
def validate_required_segments (cfg : Config) (segments_found : List Str) :
    List ValidationResult :=
  cfg.qreRequirements.requiredSegments.foldl
    (fun results sid =>
      if sid ∈ segments_found then results else results ++ [qre001 sid])
    []

/-- The BHT check of `_validate_qre_requirements` (lines 179-191). -/
def bht_check (segments : List Str) : List ValidationResult :=
  let bht_segments := segments.filter (startswith (str "BHT*"))
  if bht_segments.isEmpty then []
  else
    let bht_elements := pySplit '*' (bht_segments.headD [])
    if 2 ≤ bht_elements.length ∧ bht_elements.getD 1 [] ≠ str "0007" then
      let found := String.mk (bht_elements.getD 1 [])
      [{ severity := .WARNING, code := "QRE002",
         message := s!"BHT01 should be 0007 for inquiry, found {found}",
         segment := some (str "BHT"),
         context := [("bht01", bht_elements.getD 1 [])] }]
    else []

/-- The UM check of `_validate_qre_requirements` (lines 193-201). -/
def um_check (segments : List Str) : List ValidationResult :=
  let um_segments := segments.filter (startswith (str "UM*"))
  if um_segments.isEmpty then
    [{ severity := .WARNING, code := "QRE003",
       message := "UM segment (Health Care Services Review Information) is recommended for QRE",
       segment := some (str "UM") }]
  else []

/-- The HCR check of `_validate_qre_requirements` (lines 203-216). -/
def hcr_check (segments : List Str) : List ValidationResult :=
  let hcr_segments := segments.filter (startswith (str "HCR*"))
  if hcr_segments.isEmpty then []
  else
    let hcr_elements := pySplit '*' (hcr_segments.headD [])
    if 2 ≤ hcr_elements.length ∧
        hcr_elements.getD 1 [] ∉ [str "I1", str "A1", str "A2", str "A3", str "A4"] then
      let found := String.mk (hcr_elements.getD 1 [])
      [{ severity := .INFO, code := "QRE004",
         message := s!"HCR01 action code is {found} (I1=Inquiry is recommended)",
         segment := some (str "HCR"),
         context := [("hcr01", hcr_elements.getD 1 [])] }]
    else []

/-- `_validate_qre_requirements` (lines 174-216). -/
def validate_qre_requirements (cfg : Config) (segments : List Str) : List ValidationResult :=
  if !cfg.qreRequirements.minimalDataPrinciple then []
  else bht_check segments ++ um_check segments ++ hcr_check segments

/-- `_detect_query_method` (lines 218-247): returns the query method
string together with the findings it appends. -/
def detect_query_method (segments : List Str) : String × List ValidationResult :=
  let has_ref_auth := segments.any (startswith (str "REF*D9*"))
  let has_member_id := segments.any (startswith (str "NM1*IL*"))
  let has_dob := segments.any (startswith (str "DMG*"))
  if has_ref_auth then
    ("ByAuthorizationNumber",
      [{ severity := .INFO, code := "QRE005",
         message := "Query method: Authorization Number (REF*D9 segment found)",
         segment := some (str "REF") }])
  else if has_member_id && has_dob then
    ("ByMemberDemographics",
      [{ severity := .INFO, code := "QRE006",
         message := "Query method: Member Demographics (NM1*IL and DMG segments found)",
         segment := some (str "NM1") }])
  else
    ("Unknown",
      [{ severity := .WARNING, code := "QRE007",
         message := "Cannot determine query method (need REF*D9 OR (NM1*IL + DMG))",
         segment := some (str "REF") }])

/-- `_generate_report` (lines 249-269): counts findings per severity and
computes the validity verdict. -/
def generate_report (cfg : Config) (file_path : String) (results : List ValidationResult)
    (query_method : Option String) (segments_found : List Str) : AnalysisReport :=
  let error_count := (results.filter (fun r => decide (r.severity = Severity.ERROR))).length
  let warning_count := (results.filter (fun r => decide (r.severity = Severity.WARNING))).length
  let info_count := (results.filter (fun r => decide (r.severity = Severity.INFO))).length
  let is_valid := decide (error_count = 0)
  let is_valid :=
    if cfg.errorHandling.failOnWarnings then is_valid && decide (warning_count = 0) else is_valid
  { file_path := file_path, tr3_version := cfg.tr3Version, is_valid := is_valid,
    error_count := error_count, warning_count := warning_count, info_count := info_count,
    results := results, query_method := query_method, segments_found := segments_found }

/-- `_create_error_report` (lines 271-286). -/
def create_error_report (cfg : Config) (file_path : String) (error_msg : String) :
    AnalysisReport :=
  { file_path := file_path, tr3_version := cfg.tr3Version, is_valid := false,
    error_count := 1, warning_count := 0, info_count := 0,
    results := [{ severity := .ERROR, code := "SYS001", message := error_msg }],
    query_method := none, segments_found := [] }

/-- Lines 80-100 of `analyze_file`: the analysis performed once the file
content has been read. -/
def analyze_content (cfg : Config) (file_path : String) (content : Str) : AnalysisReport :=
  let segments := extract_segments content
  let segments_found := extract_seg_ids segments
  let qm := detect_query_method segments
  let results :=
    validate_envelopes cfg segments ++
    validate_required_segments cfg segments_found ++
    validate_qre_requirements cfg segments ++
    qm.2
  generate_report cfg file_path results (some qm.1) segments_found

/-- `analyze_file` (lines 69-100): reading the file is modelled by an
`Except` value; a read failure with message `e` takes the
`_create_error_report` branch of lines 73-77. -/
def analyze_file (cfg : Config) (file_path : String) (read_result : Except String Str) :
    AnalysisReport :=
  match read_result with
  | .error e => create_error_report cfg file_path ("Failed to read file: " ++ e)
  | .ok content => analyze_content cfg file_path content

/-- Number of findings of a given severity in a result list. -/
def count_sev (rs : List ValidationResult) (sev : Severity) : Nat :=
  (rs.filter (fun r => decide (r.severity = sev))).length

/-- Number of findings with a given severity and code in a result list. -/
def count_code (rs : List ValidationResult) (sev : Severity) (code : String) : Nat :=
  (rs.filter (fun r => decide (r.severity = sev ∧ r.code = code))).length

/-- Number of missing-required-segment errors naming a given identifier. -/
def count_missing (rs : List ValidationResult) (sid : Str) : Nat :=
  (rs.filter (fun r =>
    decide (r.severity = .ERROR ∧ r.code = "QRE001" ∧ r.segment = some sid))).length

/-- A configuration mirroring the default described by the repository
documentation: envelope validation on, the four required segments, the
minimal-data principle on, and warnings not failing the run. -/
def sample_config : Config :=
  { tr3Version := "005010X215",
    validationRules := { validateEnvelopes := true },
    qreRequirements :=
      { requiredSegments := [str "ISA", str "GS", str "ST", str "BHT"],
        minimalDataPrinciple := true },
    errorHandling := { failOnWarnings := false } }

/-- A configuration with an empty required-segment list and warnings
failing the run. -/
def empty_config : Config :=
  { tr3Version := "005010X215",
    validationRules := { validateEnvelopes := true },
    qreRequirements := { requiredSegments := [], minimalDataPrinciple := true },
    errorHandling := { failOnWarnings := true } }

/-! ## Exception-aware variants

Python list indexing raises `IndexError` when the index is out of range,
and `analyze_file` has no handler around the validation passes, so an
out-of-range index would crash the analysis.  The variants below model
every list-indexing operation of the passes with `Option` (`none` is a
raised `IndexError` reaching the caller); proving them equal to `some` of
the total functions shows the analysis never raises. -/

/-- Python `l[i]`: `none` models a raised `IndexError`. -/
def pyIndex {α : Type} (l : List α) (i : Nat) : Option α := l[i]?

/-- Line 90 with explicit indexing: `segment.split('*')[0]`. -/
def seg_idE (segment : Str) : Option Str := pyIndex (pySplit '*' segment) 0

/-- The loop of lines 88-91 with explicit indexing: a raised index error
in any iteration aborts the whole loop. -/
def seg_ids_loopE : List Str → Option (List Str)
  | [] => some []
  | s :: rest => (seg_idE s).bind fun i => (seg_ids_loopE rest).map fun tl => i :: tl

/-- Lines 88-91 with explicit indexing. -/
def extract_seg_idsE (segments : List Str) : Option (List Str) :=
  seg_ids_loopE (segments.filter (fun s => !s.isEmpty))

/-- The ST check (lines 134-159) with explicit indexing:
`st_segments[0]`, `st_elements[1]` and `st_elements[3]`. -/
def st_checkE (segments : List Str) : Option (List ValidationResult) :=
  let st_segments := segments.filter (startswith (str "ST*"))
  if st_segments.length = 0 then
    some [{ severity := .ERROR, code := "ENV004",
            message := "Missing ST segment (Transaction Set Header)",
            segment := some (str "ST") }]
  else
    (pyIndex st_segments 0).bind fun st0 =>
    let st_elements := pySplit '*' st0
    (if 2 ≤ st_elements.length then
      (pyIndex st_elements 1).map fun e1 =>
        if e1 ≠ str "278" then
          let found := String.mk e1
          [{ severity := .ERROR, code := "ENV005",
             message := s!"Invalid transaction code: expected 278, found {found}",
             segment := some (str "ST") }]
        else []
    else some []).bind fun code_results =>
    (if 4 ≤ st_elements.length then
      (pyIndex st_elements 3).map fun e3 =>
        if endswith (str "X215") e3 = false then
          let found := String.mk e3
          [{ severity := .WARNING, code := "ENV006",
             message := s!"Implementation guide version {found} may not be 005010X215",
             segment := some (str "ST"), context := [("version", e3)] }]
        else []
    else some []).bind fun version_results =>
    some (code_results ++ version_results)

/-- `_validate_envelopes` with explicit indexing. -/
def validate_envelopesE (cfg : Config) (segments : List Str) : Option (List ValidationResult) :=
  if !cfg.validationRules.validateEnvelopes then some []
  else (st_checkE segments).map fun st_results =>
    isa_check segments ++ gs_check segments ++ st_results

/-- The BHT check (lines 179-191) with explicit indexing:
`bht_segments[0]` and `bht_elements[1]`. -/
def bht_checkE (segments : List Str) : Option (List ValidationResult) :=
  let bht_segments := segments.filter (startswith (str "BHT*"))
  if bht_segments.isEmpty then some []
  else
    (pyIndex bht_segments 0).bind fun bht0 =>
    let bht_elements := pySplit '*' bht0
    if 2 ≤ bht_elements.length then
      (pyIndex bht_elements 1).map fun e1 =>
        if e1 ≠ str "0007" then
          let found := String.mk e1
          [{ severity := .WARNING, code := "QRE002",
             message := s!"BHT01 should be 0007 for inquiry, found {found}",
             segment := some (str "BHT"), context := [("bht01", e1)] }]
        else []
    else some []

/-- The HCR check (lines 203-216) with explicit indexing:
`hcr_segments[0]` and `hcr_elements[1]`. -/
def hcr_checkE (segments : List Str) : Option (List ValidationResult) :=
  let hcr_segments := segments.filter (startswith (str "HCR*"))
  if hcr_segments.isEmpty then some []
  else
    (pyIndex hcr_segments 0).bind fun hcr0 =>
    let hcr_elements := pySplit '*' hcr0
    if 2 ≤ hcr_elements.length then
      (pyIndex hcr_elements 1).map fun e1 =>
        if e1 ∉ [str "I1", str "A1", str "A2", str "A3", str "A4"] then
          let found := String.mk e1
          [{ severity := .INFO, code := "QRE004",
             message := s!"HCR01 action code is {found} (I1=Inquiry is recommended)",
             segment := some (str "HCR"), context := [("hcr01", e1)] }]
        else []
    else some []

/-- `_validate_qre_requirements` with explicit indexing. -/
def validate_qre_requirementsE (cfg : Config) (segments : List Str) :
    Option (List ValidationResult) :=
  if !cfg.qreRequirements.minimalDataPrinciple then some []
  else
    (bht_checkE segments).bind fun bht_results =>
    (hcr_checkE segments).map fun hcr_results =>
    bht_results ++ um_check segments ++ hcr_results

/-- The full analysis of file content with every indexing operation
explicit. -/
def analyze_contentE (cfg : Config) (file_path : String) (content : Str) :
    Option AnalysisReport :=
  let segments := extract_segments content
  (extract_seg_idsE segments).bind fun segments_found =>
  (validate_envelopesE cfg segments).bind fun env_results =>
  (validate_qre_requirementsE cfg segments).map fun qre_results =>
  let qm := detect_query_method segments
  let results :=
    env_results ++ validate_required_segments cfg segments_found ++ qre_results ++ qm.2
  generate_report cfg file_path results (some qm.1) segments_found

/-! ## Helper lemmas -/

theorem count_sev_append (a b : List ValidationResult) (sev : Severity) :
    count_sev (a ++ b) sev = count_sev a sev + count_sev b sev := by
  simp [count_sev, List.filter_append]

theorem count_code_append (a b : List ValidationResult) (sev : Severity) (code : String) :
    count_code (a ++ b) sev code = count_code a sev code + count_code b sev code := by
  simp [count_code, List.filter_append]

theorem count_missing_append (a b : List ValidationResult) (sid : Str) :
    count_missing (a ++ b) sid = count_missing a sid + count_missing b sid := by
  simp [count_missing, List.filter_append]

theorem count_sev_partition (rs : List ValidationResult) :
    count_sev rs .ERROR + count_sev rs .WARNING + count_sev rs .INFO = rs.length := by
  induction rs with
  | nil => rfl
  | cons r rs ih =>
    simp only [count_sev, List.filter_cons, List.length_cons] at *
    cases h : r.severity <;> simp [h] <;> omega

theorem splitOnP_forall_not {α : Type} (p : α → Bool) (xs : List α) :
    ∀ l ∈ xs.splitOnP p, ∀ a ∈ l, p a = false := by
  induction xs with
  | nil =>
    intro l hl a ha
    simp only [List.splitOnP_nil, List.mem_singleton] at hl
    subst hl
    simp at ha
  | cons x xs ih =>
    intro l hl a ha
    rw [List.splitOnP_cons] at hl
    by_cases hx : p x = true
    · rw [if_pos hx] at hl
      rcases List.mem_cons.mp hl with h | h
      · subst h; simp at ha
      · exact ih l h a ha
    · rw [if_neg hx] at hl
      rcases hsp : xs.splitOnP p with _ | ⟨hd, tl⟩
      · exact absurd hsp (List.splitOnP_ne_nil p xs)
      · rw [hsp] at hl
        simp only [List.modifyHead, List.mem_cons] at hl
        rcases hl with h | h
        · subst h
          rcases List.mem_cons.mp ha with h2 | h2
          · subst h2; exact Bool.eq_false_iff.mpr hx
          · exact ih hd (hsp ▸ List.mem_cons_self hd tl) a h2
        · exact ih l (hsp ▸ List.mem_cons_of_mem hd h) a ha

theorem pySplit_sep_not_mem (c : Char) (s : Str) :
    ∀ l ∈ pySplit c s, c ∉ l := by
  intro l hl hc
  have h := splitOnP_forall_not (fun a => a == c) s l (by simpa [pySplit, List.splitOn] using hl) c hc
  simp at h

theorem pySplit_ne_nil (c : Char) (s : Str) : pySplit c s ≠ [] := by
  simpa [pySplit, List.splitOn] using List.splitOnP_ne_nil (fun a => a == c) s

theorem seg_id_no_sep (s : Str) : '*' ∉ seg_id s := by
  rcases h : pySplit '*' s with _ | ⟨hd, tl⟩
  · exact absurd h (pySplit_ne_nil '*' s)
  · have := pySplit_sep_not_mem '*' s hd (h ▸ List.mem_cons_self hd tl)
    simpa [seg_id, h] using this

theorem seg_id_cases (s : Str) :
    ('*' ∉ s ∧ seg_id s = s) ∨ (∃ rest, s = seg_id s ++ '*' :: rest) := by
  rcases h : pySplit '*' s with _ | ⟨hd, tl⟩
  · exact absurd h (pySplit_ne_nil '*' s)
  · have hrt : ['*'].intercalate (hd :: tl) = s := by
      have := List.intercalate_splitOn s '*'
      rw [show s.splitOn '*' = pySplit '*' s from rfl, h] at this
      exact this
    have hid : seg_id s = hd := by simp [seg_id, h]
    rcases tl with _ | ⟨hd2, tl2⟩
    · left
      have hs : s = hd := by simpa [List.intercalate] using hrt.symm
      constructor
      · rw [hs]
        exact pySplit_sep_not_mem '*' s hd (h ▸ List.mem_cons_self hd [])
      · rw [hid, hs]
    · right
      refine ⟨['*'].intercalate (hd2 :: tl2), ?_⟩
      rw [hid, ← hrt]
      simp [List.intercalate]

theorem seg_id_of_no_sep {s : Str} (h : '*' ∉ s) : seg_id s = s := by
  rcases seg_id_cases s with ⟨_, h2⟩ | ⟨rest, hrest⟩
  · exact h2
  · exact absurd (hrest ▸ List.mem_append_right _ (List.mem_cons_self _ _)) h

theorem seg_id_of_sep {s : Str} (h : '*' ∈ s) :
    ∃ rest, s = seg_id s ++ '*' :: rest := by
  rcases seg_id_cases s with ⟨h1, _⟩ | h2
  · exact absurd h h1
  · exact h2

theorem pyStrip_idem (s : Str) : pyStrip (pyStrip s) = pyStrip s := by
  unfold pyStrip
  have h1 : ((s.dropWhile Char.isWhitespace).rdropWhile Char.isWhitespace).dropWhile
      Char.isWhitespace = (s.dropWhile Char.isWhitespace).rdropWhile Char.isWhitespace := by
    rw [List.dropWhile_eq_self_iff]
    intro hl
    have hpre := List.rdropWhile_prefix Char.isWhitespace (s.dropWhile Char.isWhitespace)
    have hlen : 0 < (s.dropWhile Char.isWhitespace).length :=
      Nat.lt_of_lt_of_le hl (List.IsPrefix.length_le hpre)
    have hget := List.IsPrefix.getElem hpre (n := 0) hl
    have hne : s.dropWhile Char.isWhitespace ≠ [] := by
      intro h
      rw [h] at hlen
      simp at hlen
    have hhead := List.head_dropWhile_not Char.isWhitespace s hne
    intro hcontra
    apply absurd _ (by simp [hhead] : ¬Char.isWhitespace ((s.dropWhile Char.isWhitespace).head hne) = true)
    rw [List.head_eq_getElem_zero hne, ← hget]
    simpa [List.get_eq_getElem] using hcontra
  rw [h1, List.rdropWhile_idempotent]

theorem pyStrip_subset (s : Str) : pyStrip s ⊆ s := by
  intro a ha
  unfold pyStrip at ha
  have h1 := List.rdropWhile_prefix Char.isWhitespace (s.dropWhile Char.isWhitespace)
  have h2 := List.dropWhile_sublist (l := s) Char.isWhitespace
  exact h2.subset (h1.sublist.subset ha)

theorem extract_segments_mem (content : Str) :
    ∀ s ∈ extract_segments content, s ≠ [] ∧ pyStrip s = s ∧ '~' ∉ s := by
  intro s hs
  unfold extract_segments at hs
  rcases List.mem_filter.mp hs with ⟨hmap, hne⟩
  rcases List.mem_map.mp hmap with ⟨t, ht, rfl⟩
  refine ⟨by simpa using hne, pyStrip_idem t, fun hc => ?_⟩
  exact pySplit_sep_not_mem '~' content t ht (pyStrip_subset t hc)

theorem extract_segments_join (content : Str) :
    extract_segments (List.intercalate ['~'] (extract_segments content)) =
      extract_segments content := by
  rcases h : extract_segments content with _ | ⟨hd, tl⟩
  · rfl
  · have hmem := extract_segments_mem content
    rw [h] at hmem
    have hnosep : ∀ l ∈ hd :: tl, '~' ∉ l := fun l hl => (hmem l hl).2.2
    have hsplit := List.splitOn_intercalate (hd :: tl) '~' hnosep (List.cons_ne_nil hd tl)
    unfold extract_segments
    rw [show pySplit '~' (List.intercalate ['~'] (hd :: tl)) = hd :: tl from hsplit]
    have hmap : (hd :: tl).map pyStrip = hd :: tl := by
      have h2 : (hd :: tl).map pyStrip = (hd :: tl).map id :=
        List.map_congr_left (fun a ha => (hmem a ha).2.1)
      simpa using h2
    rw [hmap]
    exact List.filter_eq_self.mpr (fun a ha => by simpa using (hmem a ha).1)

theorem validate_required_eq (cfg : Config) (found : List Str) :
    validate_required_segments cfg found =
      (cfg.qreRequirements.requiredSegments.filter (fun sid => decide (sid ∉ found))).map
        qre001 := by
  unfold validate_required_segments
  generalize cfg.qreRequirements.requiredSegments = required
  suffices h : ∀ acc, required.foldl
      (fun results sid => if sid ∈ found then results else results ++ [qre001 sid]) acc =
      acc ++ (required.filter (fun sid => decide (sid ∉ found))).map qre001 by
    simpa using h []
  induction required with
  | nil => intro acc; simp
  | cons sid rest ih =>
    intro acc
    simp only [List.foldl_cons, List.filter_cons]
    by_cases hmem : sid ∈ found
    · rw [if_pos hmem, ih]
      simp [hmem]
    · rw [if_neg hmem, ih]
      simp [hmem]

theorem count_missing_qre001_map (l : List Str) (sid : Str) :
    count_missing (l.map qre001) sid = (l.filter (fun x => decide (x = sid))).length := by
  induction l with
  | nil => rfl
  | cons a l ih =>
    have hhead : decide ((qre001 a).severity = Severity.ERROR ∧ (qre001 a).code = "QRE001" ∧
        (qre001 a).segment = some sid) = decide (a = sid) := by
      by_cases h : a = sid <;> simp [qre001, h]
    simp only [count_missing, List.map_cons, List.filter_cons] at ih ⊢
    rw [hhead]
    by_cases h : a = sid
    · rw [if_pos (by simp [h]), if_pos (by simp [h])]
      simp only [List.length_cons]
      omega
    · rw [if_neg (by simp [h]), if_neg (by simp [h])]
      exact ih

theorem count_missing_required (cfg : Config) (found : List Str) (sid : Str) :
    count_missing (validate_required_segments cfg found) sid =
      if sid ∈ found then 0
      else (cfg.qreRequirements.requiredSegments.filter (fun x => decide (x = sid))).length := by
  rw [validate_required_eq, count_missing_qre001_map, List.filter_filter]
  by_cases hmem : sid ∈ found
  · rw [if_pos hmem, List.length_eq_zero, List.filter_eq_nil_iff]
    intro a _
    by_cases ha : a = sid
    · subst ha; simp [hmem]
    · simp [ha]
  · rw [if_neg hmem]
    congr 1
    apply List.filter_congr
    intro a _
    by_cases ha : a = sid
    · subst ha; simp [hmem]
    · simp [ha]

theorem count_code_zero_of_forall (rs : List ValidationResult) (sev : Severity) (c : String)
    (h : ∀ r ∈ rs, r.code ≠ c) : count_code rs sev c = 0 := by
  rw [count_code, List.length_eq_zero, List.filter_eq_nil_iff]
  intro r hr
  simp [h r hr]

theorem isa_check_codes (segments : List Str) :
    ∀ r ∈ isa_check segments, r.code = "ENV001" ∨ r.code = "ENV002" := by
  intro r hr
  simp only [isa_check] at hr
  split at hr
  · simp only [List.mem_singleton] at hr
    subst hr
    left; rfl
  · split at hr
    · simp only [List.mem_singleton] at hr
      subst hr
      right; rfl
    · simp at hr

theorem gs_check_codes (segments : List Str) :
    ∀ r ∈ gs_check segments, r.code = "ENV003" := by
  intro r hr
  simp only [gs_check] at hr
  split at hr
  · simp only [List.mem_singleton] at hr
    subst hr
    rfl
  · simp at hr

theorem st_check_codes (segments : List Str) :
    ∀ r ∈ st_check segments, r.code = "ENV004" ∨ r.code = "ENV005" ∨ r.code = "ENV006" := by
  intro r hr
  simp only [st_check] at hr
  split at hr
  · simp only [List.mem_singleton] at hr
    subst hr
    left; rfl
  · rw [List.mem_append] at hr
    rcases hr with hr | hr
    · split at hr
      · simp only [List.mem_singleton] at hr
        subst hr
        right; left; rfl
      · simp at hr
    · split at hr
      · simp only [List.mem_singleton] at hr
        subst hr
        right; right; rfl
      · simp at hr

theorem bht_check_codes (segments : List Str) :
    ∀ r ∈ bht_check segments, r.code = "QRE002" := by
  intro r hr
  simp only [bht_check] at hr
  split at hr
  · simp at hr
  · split at hr
    · simp only [List.mem_singleton] at hr
      subst hr
      rfl
    · simp at hr

theorem um_check_codes (segments : List Str) :
    ∀ r ∈ um_check segments, r.code = "QRE003" := by
  intro r hr
  simp only [um_check] at hr
  split at hr
  · simp only [List.mem_singleton] at hr
    subst hr
    rfl
  · simp at hr

theorem hcr_check_codes (segments : List Str) :
    ∀ r ∈ hcr_check segments, r.code = "QRE004" := by
  intro r hr
  simp only [hcr_check] at hr
  split at hr
  · simp at hr
  · split at hr
    · simp only [List.mem_singleton] at hr
      subst hr
      rfl
    · simp at hr

theorem count_isa_env001 (segments : List Str) :
    count_code (isa_check segments) .ERROR "ENV001" =
      if (segments.filter (startswith (str "ISA*"))).length = 0 then 1 else 0 := by
  simp only [isa_check]
  by_cases h : (segments.filter (startswith (str "ISA*"))).length = 0
  · rw [if_pos h, if_pos h]
    rfl
  · rw [if_neg h, if_neg h]
    split
    · simp [count_code]
    · rfl

theorem count_isa_env002 (segments : List Str) :
    count_code (isa_check segments) .WARNING "ENV002" =
      if 1 < (segments.filter (startswith (str "ISA*"))).length then 1 else 0 := by
  simp only [isa_check]
  by_cases h0 : (segments.filter (startswith (str "ISA*"))).length = 0
  · rw [if_pos h0, if_neg (by omega)]
    simp [count_code]
  · rw [if_neg h0]
    by_cases h1 : 1 < (segments.filter (startswith (str "ISA*"))).length
    · rw [if_pos h1, if_pos h1]
      simp [count_code]
    · rw [if_neg h1, if_neg h1]
      rfl

theorem count_st_env004 (segments : List Str)
    (h : ¬(segments.filter (startswith (str "ST*"))).length = 0) :
    count_code (st_check segments) .ERROR "ENV004" = 0 := by
  simp only [st_check]
  rw [if_neg h, count_code_append]
  split <;> split <;> simp [count_code]

theorem count_st_env005 (segments : List Str) (el : List Str)
    (h : ¬(segments.filter (startswith (str "ST*"))).length = 0)
    (hel : el = pySplit '*' ((segments.filter (startswith (str "ST*"))).headD [])) :
    count_code (st_check segments) .ERROR "ENV005" =
      if 2 ≤ el.length ∧ el.getD 1 [] ≠ str "278" then 1 else 0 := by
  simp only [st_check]
  rw [if_neg h, ← hel, count_code_append]
  by_cases hP : 2 ≤ el.length ∧ el.getD 1 [] ≠ str "278"
  · rw [if_pos hP, if_pos hP]
    split <;> simp [count_code]
  · rw [if_neg hP, if_neg hP]
    split <;> simp [count_code]

theorem count_st_env006 (segments : List Str) (el : List Str)
    (h : ¬(segments.filter (startswith (str "ST*"))).length = 0)
    (hel : el = pySplit '*' ((segments.filter (startswith (str "ST*"))).headD [])) :
    count_code (st_check segments) .WARNING "ENV006" =
      if 4 ≤ el.length ∧ endswith (str "X215") (el.getD 3 []) = false then 1 else 0 := by
  simp only [st_check]
  rw [if_neg h, ← hel, count_code_append]
  by_cases hP : 4 ≤ el.length ∧ endswith (str "X215") (el.getD 3 []) = false
  · rw [if_pos hP, if_pos hP]
    split <;> simp [count_code]
  · rw [if_neg hP, if_neg hP]
    split <;> simp [count_code]

theorem pyIndex_eq_getD {α : Type} (l : List α) (i : Nat) (d : α) (h : i < l.length) :
    pyIndex l i = some (l.getD i d) := by
  rw [pyIndex, List.getElem?_eq_getElem h, List.getD_eq_getElem l d h]

theorem pyIndex_zero_eq_headD {α : Type} (l : List α) (d : α) (h : l ≠ []) :
    pyIndex l 0 = some (l.headD d) := by
  cases l with
  | nil => exact absurd rfl h
  | cons a l => simp [pyIndex]

theorem seg_idE_eq (segment : Str) : seg_idE segment = some (seg_id segment) := by
  rcases h : pySplit '*' segment with _ | ⟨hd, tl⟩
  · exact absurd h (pySplit_ne_nil '*' segment)
  · simp [seg_idE, seg_id, h, pyIndex]

theorem extract_seg_idsE_eq (segments : List Str) :
    extract_seg_idsE segments = some (extract_seg_ids segments) := by
  unfold extract_seg_idsE extract_seg_ids
  generalize segments.filter (fun s => !s.isEmpty) = l
  induction l with
  | nil => rfl
  | cons a l ih =>
    simp [seg_ids_loopE, seg_idE_eq a, ih]

theorem st_checkE_eq (segments : List Str) : st_checkE segments = some (st_check segments) := by
  unfold st_checkE st_check
  by_cases h0 : (segments.filter (startswith (str "ST*"))).length = 0
  · simp [h0]
  · have hne : segments.filter (startswith (str "ST*")) ≠ [] := by
      intro hnil
      rw [hnil] at h0
      exact h0 rfl
    have hidx0 := pyIndex_zero_eq_headD (segments.filter (startswith (str "ST*"))) [] hne
    rw [if_neg h0, if_neg h0, hidx0]
    simp only [Option.some_bind]
    generalize (segments.filter (startswith (str "ST*"))).headD [] = st0
    generalize hEl : pySplit '*' st0 = el
    by_cases h2 : 2 ≤ el.length
    · have hidx1 := pyIndex_eq_getD el 1 [] (by omega)
      by_cases h4 : 4 ≤ el.length
      · have hidx3 := pyIndex_eq_getD el 3 [] (by omega)
        simp [h2, h4, hidx1, hidx3]
      · simp [h2, h4, hidx1]
    · have h4 : ¬4 ≤ el.length := by omega
      simp [h2, h4]

theorem validate_envelopesE_eq (cfg : Config) (segments : List Str) :
    validate_envelopesE cfg segments = some (validate_envelopes cfg segments) := by
  unfold validate_envelopesE validate_envelopes
  by_cases h : !cfg.validationRules.validateEnvelopes
  · simp [h]
  · simp [h, st_checkE_eq]

theorem bht_checkE_eq (segments : List Str) : bht_checkE segments = some (bht_check segments) := by
  unfold bht_checkE bht_check
  by_cases h0 : (segments.filter (startswith (str "BHT*"))).isEmpty
  · simp [h0]
  · have hne : segments.filter (startswith (str "BHT*")) ≠ [] := by
      simpa [List.isEmpty_iff] using h0
    have hidx0 := pyIndex_zero_eq_headD (segments.filter (startswith (str "BHT*"))) [] hne
    rw [if_neg (by simpa using h0), if_neg (by simpa using h0), hidx0]
    simp only [Option.some_bind]
    generalize (segments.filter (startswith (str "BHT*"))).headD [] = bht0
    generalize hEl : pySplit '*' bht0 = el
    by_cases h2 : 2 ≤ el.length
    · have hidx1 := pyIndex_eq_getD el 1 [] (by omega)
      simp [h2, hidx1]
    · simp [h2]

theorem hcr_checkE_eq (segments : List Str) : hcr_checkE segments = some (hcr_check segments) := by
  unfold hcr_checkE hcr_check
  by_cases h0 : (segments.filter (startswith (str "HCR*"))).isEmpty
  · simp [h0]
  · have hne : segments.filter (startswith (str "HCR*")) ≠ [] := by
      simpa [List.isEmpty_iff] using h0
    have hidx0 := pyIndex_zero_eq_headD (segments.filter (startswith (str "HCR*"))) [] hne
    rw [if_neg (by simpa using h0), if_neg (by simpa using h0), hidx0]
    simp only [Option.some_bind]
    generalize (segments.filter (startswith (str "HCR*"))).headD [] = hcr0
    generalize hEl : pySplit '*' hcr0 = el
    by_cases h2 : 2 ≤ el.length
    · have hidx1 := pyIndex_eq_getD el 1 [] (by omega)
      simp [h2, hidx1]
    · simp [h2]

theorem validate_qre_requirementsE_eq (cfg : Config) (segments : List Str) :
    validate_qre_requirementsE cfg segments = some (validate_qre_requirements cfg segments) := by
  unfold validate_qre_requirementsE validate_qre_requirements
  by_cases h : !cfg.qreRequirements.minimalDataPrinciple
  · simp [h]
  · simp [h, bht_checkE_eq, hcr_checkE_eq]

theorem startswith_false_of_no_sep {p s : Str} (hp : '*' ∈ p) (hs : '*' ∉ s) :
    startswith p s = false := by
  rw [Bool.eq_false_iff]
  intro h
  rw [startswith] at h
  have hpre := List.isPrefixOf_iff_prefix.mp h
  exact hs (hpre.sublist.subset hp)

theorem generate_report_spec (cfg : Config) (fp : String) (results : List ValidationResult)
    (qm : Option String) (sf : List Str) :
    (generate_report cfg fp results qm sf).error_count = count_sev results .ERROR ∧
    (generate_report cfg fp results qm sf).warning_count = count_sev results .WARNING ∧
    (generate_report cfg fp results qm sf).info_count = count_sev results .INFO ∧
    (generate_report cfg fp results qm sf).results = results ∧
    ((generate_report cfg fp results qm sf).is_valid = true ↔
      (count_sev results .ERROR = 0 ∧
        (cfg.errorHandling.failOnWarnings = false ∨ count_sev results .WARNING = 0))) := by
  refine ⟨rfl, rfl, rfl, rfl, ?_⟩
  by_cases hf : cfg.errorHandling.failOnWarnings
  · simp [generate_report, hf, count_sev]
  · simp [generate_report, hf, count_sev]

/-! ## Claims -/

/-- C1: for every analysis run (normal validation run or the
single-finding report on file-read failure), the Report counts findings
exactly: `error_count`, `warning_count` and `info_count` are the numbers
of ERROR, WARNING and INFO findings, their sum is the number of findings,
and `is_valid` is true iff there is no error and (warnings do not fail
the run or there is no warning). -/
theorem C1_report_counts_and_validity (cfg : Config) (fp : String)
    (read_result : Except String Str) :
    (analyze_file cfg fp read_result).error_count =
      count_sev (analyze_file cfg fp read_result).results .ERROR ∧
    (analyze_file cfg fp read_result).warning_count =
      count_sev (analyze_file cfg fp read_result).results .WARNING ∧
    (analyze_file cfg fp read_result).info_count =
      count_sev (analyze_file cfg fp read_result).results .INFO ∧
    (analyze_file cfg fp read_result).error_count +
      (analyze_file cfg fp read_result).warning_count +
      (analyze_file cfg fp read_result).info_count =
      (analyze_file cfg fp read_result).results.length ∧
    ((analyze_file cfg fp read_result).is_valid = true ↔
      ((analyze_file cfg fp read_result).error_count = 0 ∧
        (cfg.errorHandling.failOnWarnings = false ∨
          (analyze_file cfg fp read_result).warning_count = 0))) := by
  cases read_result with
  | error e =>
    refine ⟨?_, ?_, ?_, ?_, ?_⟩ <;>
      simp [analyze_file, create_error_report, count_sev]
  | ok content =>
    have h := generate_report_spec cfg fp
      (validate_envelopes cfg (extract_segments content) ++
        validate_required_segments cfg (extract_seg_ids (extract_segments content)) ++
        validate_qre_requirements cfg (extract_segments content) ++
        (detect_query_method (extract_segments content)).2)
      (some (detect_query_method (extract_segments content)).1)
      (extract_seg_ids (extract_segments content))
    refine ⟨h.1, h.2.1, h.2.2.1, ?_, ?_⟩
    · show count_sev _ .ERROR + count_sev _ .WARNING + count_sev _ .INFO = _
      rw [show (analyze_file cfg fp (Except.ok content)).results =
        (validate_envelopes cfg (extract_segments content) ++
          validate_required_segments cfg (extract_seg_ids (extract_segments content)) ++
          validate_qre_requirements cfg (extract_segments content) ++
          (detect_query_method (extract_segments content)).2) from rfl]
      exact count_sev_partition _
    · exact h.2.2.2.2

/-- C2 counterexample: the record `REF*D9` has identifier `REF` and
second element `D9`, yet query-method inference yields `Unknown`, not
`ByAuthorizationNumber`, because the code tests for the raw prefix
`REF*D9*`. -/
theorem C2_counterexample :
    seg_id (str "REF*D9") = str "REF" ∧
    (pySplit '*' (str "REF*D9")).getD 1 [] = str "D9" ∧
    (detect_query_method [str "REF*D9"]).1 = "Unknown" ∧
    (detect_query_method [str "REF*D9"]).1 ≠ "ByAuthorizationNumber" := by
  refine ⟨by decide, by decide, by decide, by decide⟩

/-- C2 (amended): query-method inference tests raw-text prefixes, first
match winning: a segment starting with `REF*D9*` gives
ByAuthorizationNumber with one INFO finding (even when `NM1*IL*` and
`DMG*` segments also exist); otherwise a segment starting with `NM1*IL*`
together with one starting with `DMG*` gives ByMemberDemographics with
one INFO finding; otherwise Unknown with one WARNING finding. -/
theorem C2_amended_query_method (segments : List Str) :
    (segments.any (startswith (str "REF*D9*")) = true →
      (detect_query_method segments).1 = "ByAuthorizationNumber" ∧
      (detect_query_method segments).2.length = 1 ∧
      count_sev (detect_query_method segments).2 .INFO = 1) ∧
    (segments.any (startswith (str "REF*D9*")) = false →
      segments.any (startswith (str "NM1*IL*")) = true →
      segments.any (startswith (str "DMG*")) = true →
      (detect_query_method segments).1 = "ByMemberDemographics" ∧
      (detect_query_method segments).2.length = 1 ∧
      count_sev (detect_query_method segments).2 .INFO = 1) ∧
    (segments.any (startswith (str "REF*D9*")) = false →
      (segments.any (startswith (str "NM1*IL*")) = false ∨
        segments.any (startswith (str "DMG*")) = false) →
      (detect_query_method segments).1 = "Unknown" ∧
      (detect_query_method segments).2.length = 1 ∧
      count_sev (detect_query_method segments).2 .WARNING = 1) := by
  refine ⟨?_, ?_, ?_⟩
  · intro h
    refine ⟨?_, ?_, ?_⟩ <;> simp [detect_query_method, h, count_sev]
  · intro h1 h2 h3
    refine ⟨?_, ?_, ?_⟩ <;> simp [detect_query_method, h1, h2, h3, count_sev]
  · intro h1 h2
    rcases h2 with h | h <;>
      refine ⟨?_, ?_, ?_⟩ <;> simp [detect_query_method, h1, h, count_sev]

/-- C2 witness: with only a `REF*D9*AUTH123` segment the method is
ByAuthorizationNumber with a single INFO finding. -/
theorem C2_amended_query_method_witness :
    (detect_query_method [str "REF*D9*AUTH123"]).1 = "ByAuthorizationNumber" ∧
    (detect_query_method [str "REF*D9*AUTH123"]).2.length = 1 ∧
    count_sev (detect_query_method [str "REF*D9*AUTH123"]).2 .INFO = 1 :=
  (C2_amended_query_method [str "REF*D9*AUTH123"]).1 (by decide)

/-- C3: segment extraction splits on `~`, trims each piece, discards
pieces empty after trimming, and takes as identifier the part of each
record before its first `*` (the whole record when it has no `*`); the
identifier list is the record list mapped through `seg_id` in order with
duplicates preserved, and empty or all-terminator input yields empty
outputs. -/
theorem C3_segment_extraction (content : Str) :
    (∀ s ∈ extract_segments content, s ≠ [] ∧ pyStrip s = s) ∧
    extract_seg_ids (extract_segments content) = (extract_segments content).map seg_id ∧
    (∀ s ∈ extract_segments content,
      '*' ∉ seg_id s ∧
      ('*' ∉ s → seg_id s = s) ∧
      ('*' ∈ s → ∃ rest, s = seg_id s ++ '*' :: rest)) ∧
    extract_segments [] = [] ∧
    extract_segments (str "~~~") = [] := by
  refine ⟨fun s hs => ⟨(extract_segments_mem content s hs).1,
      (extract_segments_mem content s hs).2.1⟩, ?_,
    fun s _ => ⟨seg_id_no_sep s, fun h => seg_id_of_no_sep h, fun h => seg_id_of_sep h⟩,
    rfl, by decide⟩
  unfold extract_seg_ids
  rw [List.filter_eq_self.mpr
    (fun s hs => by simpa using (extract_segments_mem content s hs).1)]

/-- C3 witness: the extraction properties evaluated on a small document
with whitespace, an empty piece and a duplicate identifier. -/
theorem C3_segment_extraction_witness :
    (∀ s ∈ extract_segments (str " ISA*00~~GS ~GS~REF*D9~"),
      s ≠ [] ∧ pyStrip s = s) ∧
    extract_seg_ids (extract_segments (str " ISA*00~~GS ~GS~REF*D9~")) =
      (extract_segments (str " ISA*00~~GS ~GS~REF*D9~")).map seg_id ∧
    (∀ s ∈ extract_segments (str " ISA*00~~GS ~GS~REF*D9~"),
      '*' ∉ seg_id s ∧
      ('*' ∉ s → seg_id s = s) ∧
      ('*' ∈ s → ∃ rest, s = seg_id s ++ '*' :: rest)) ∧
    extract_segments [] = [] ∧
    extract_segments (str "~~~") = [] :=
  C3_segment_extraction (str " ISA*00~~GS ~GS~REF*D9~")

/-- C4 counterexample: the input `ISA~` yields exactly one segment whose
identifier is `ISA`, yet the missing-ISA ERROR is still emitted, because
the ISA check selects segments by the raw prefix `ISA*`. -/
theorem C4_counterexample :
    (extract_segments (str "ISA~") = [str "ISA"]) ∧
    ([str "ISA"].filter (fun s => decide (seg_id s = str "ISA"))).length = 1 ∧
    count_code (validate_envelopes sample_config [str "ISA"]) .ERROR "ENV001" = 1 := by
  refine ⟨by decide, by decide, by decide⟩

/-- C4 (amended): when envelope validation is enabled, the ISA check
counts the segments starting with `ISA*`: zero such segments give exactly
one ENV001 ERROR and no ENV002 WARNING, more than one give exactly one
ENV002 WARNING and no ENV001 ERROR, and exactly one gives neither. -/
theorem C4_amended_isa_counts (cfg : Config) (segments : List Str)
    (henv : cfg.validationRules.validateEnvelopes = true) :
    ((segments.filter (startswith (str "ISA*"))).length = 0 →
      count_code (validate_envelopes cfg segments) .ERROR "ENV001" = 1 ∧
      count_code (validate_envelopes cfg segments) .WARNING "ENV002" = 0) ∧
    (1 < (segments.filter (startswith (str "ISA*"))).length →
      count_code (validate_envelopes cfg segments) .WARNING "ENV002" = 1 ∧
      count_code (validate_envelopes cfg segments) .ERROR "ENV001" = 0) ∧
    ((segments.filter (startswith (str "ISA*"))).length = 1 →
      count_code (validate_envelopes cfg segments) .ERROR "ENV001" = 0 ∧
      count_code (validate_envelopes cfg segments) .WARNING "ENV002" = 0) := by
  have hsplit : validate_envelopes cfg segments =
      isa_check segments ++ gs_check segments ++ st_check segments := by
    simp [validate_envelopes, henv]
  have hgs : ∀ sev c, c ≠ "ENV003" → count_code (gs_check segments) sev c = 0 := by
    intro sev c hc
    exact count_code_zero_of_forall _ _ _
      (fun r hr => by rw [gs_check_codes segments r hr]; exact fun h => hc h.symm)
  have hst : ∀ sev c, c ≠ "ENV004" → c ≠ "ENV005" → c ≠ "ENV006" →
      count_code (st_check segments) sev c = 0 := by
    intro sev c h4 h5 h6
    refine count_code_zero_of_forall _ _ _ (fun r hr => ?_)
    rcases st_check_codes segments r hr with h | h | h <;> rw [h]
    · exact fun h => h4 h.symm
    · exact fun h => h5 h.symm
    · exact fun h => h6 h.symm
  refine ⟨?_, ?_, ?_⟩ <;> intro hn
  · have e1 : count_code (isa_check segments) .ERROR "ENV001" = 1 := by
      rw [count_isa_env001, if_pos hn]
    have e2 : count_code (isa_check segments) .WARNING "ENV002" = 0 := by
      rw [count_isa_env002, if_neg (by omega)]
    rw [hsplit, count_code_append, count_code_append, count_code_append, count_code_append,
      e1, e2, hgs Severity.ERROR "ENV001" (by decide), hgs Severity.WARNING "ENV002" (by decide),
      hst Severity.ERROR "ENV001" (by decide) (by decide) (by decide),
      hst Severity.WARNING "ENV002" (by decide) (by decide) (by decide)]
    exact ⟨by simp, by simp⟩
  · have e1 : count_code (isa_check segments) .ERROR "ENV001" = 0 := by
      rw [count_isa_env001, if_neg (by omega)]
    have e2 : count_code (isa_check segments) .WARNING "ENV002" = 1 := by
      rw [count_isa_env002, if_pos hn]
    rw [hsplit, count_code_append, count_code_append, count_code_append, count_code_append,
      e1, e2, hgs Severity.ERROR "ENV001" (by decide), hgs Severity.WARNING "ENV002" (by decide),
      hst Severity.ERROR "ENV001" (by decide) (by decide) (by decide),
      hst Severity.WARNING "ENV002" (by decide) (by decide) (by decide)]
    exact ⟨by simp, by simp⟩
  · have e1 : count_code (isa_check segments) .ERROR "ENV001" = 0 := by
      rw [count_isa_env001, if_neg (by omega)]
    have e2 : count_code (isa_check segments) .WARNING "ENV002" = 0 := by
      rw [count_isa_env002, if_neg (by omega)]
    rw [hsplit, count_code_append, count_code_append, count_code_append, count_code_append,
      e1, e2, hgs Severity.ERROR "ENV001" (by decide), hgs Severity.WARNING "ENV002" (by decide),
      hst Severity.ERROR "ENV001" (by decide) (by decide) (by decide),
      hst Severity.WARNING "ENV002" (by decide) (by decide) (by decide)]
    exact ⟨by simp, by simp⟩

/-- C4 witness: a document with exactly one `ISA*`-prefixed segment
produces neither the ENV001 ERROR nor the ENV002 WARNING. -/
theorem C4_amended_isa_counts_witness :
    count_code (validate_envelopes sample_config [str "ISA*00"]) .ERROR "ENV001" = 0 ∧
    count_code (validate_envelopes sample_config [str "ISA*00"]) .WARNING "ENV002" = 0 :=
  (C4_amended_isa_counts sample_config [str "ISA*00"] rfl).2.2 (by decide)

/-- C5 counterexample: in `ST~ST*837~` the first segment whose identifier
is `ST` is the bare record `ST`, which has fewer than two elements, so
under the claim no invalid-transaction-code ERROR should be emitted; the
code nevertheless emits one ENV005 ERROR, because it inspects the first
segment starting with `ST*`, here `ST*837`. -/
theorem C5_counterexample :
    seg_id (str "ST") = str "ST" ∧
    ([str "ST", str "ST*837"].filter (fun s => decide (seg_id s = str "ST"))).headD []
      = str "ST" ∧
    (pySplit '*' (str "ST")).length < 2 ∧
    count_code (validate_envelopes sample_config [str "ST", str "ST*837"]) .ERROR "ENV005"
      = 1 := by
  refine ⟨by decide, by decide, by decide, by decide⟩

/-- C5 (amended): when envelope validation is enabled and some segment
starts with `ST*`, only the first such segment is inspected: exactly one
ENV005 ERROR is emitted iff its second element exists and differs from
`278`, exactly one ENV006 WARNING iff its fourth element exists and does
not end with `X215`, element positions beyond the segment length produce
no finding, and no missing-ST ENV004 ERROR is emitted. -/
theorem C5_amended_st_counts (cfg : Config) (segments : List Str) (el : List Str)
    (henv : cfg.validationRules.validateEnvelopes = true)
    (hne : segments.filter (startswith (str "ST*")) ≠ [])
    (hel : el = pySplit '*' ((segments.filter (startswith (str "ST*"))).headD [])) :
    count_code (validate_envelopes cfg segments) .ERROR "ENV005" =
      (if 2 ≤ el.length ∧ el.getD 1 [] ≠ str "278" then 1 else 0) ∧
    count_code (validate_envelopes cfg segments) .WARNING "ENV006" =
      (if 4 ≤ el.length ∧ endswith (str "X215") (el.getD 3 []) = false then 1 else 0) ∧
    count_code (validate_envelopes cfg segments) .ERROR "ENV004" = 0 := by
  have hsplit : validate_envelopes cfg segments =
      isa_check segments ++ gs_check segments ++ st_check segments := by
    simp [validate_envelopes, henv]
  have h0 : ¬(segments.filter (startswith (str "ST*"))).length = 0 := by
    simpa [List.length_eq_zero] using hne
  have hisa : ∀ sev c, c ≠ "ENV001" → c ≠ "ENV002" → count_code (isa_check segments) sev c = 0 := by
    intro sev c h1 h2
    refine count_code_zero_of_forall _ _ _ (fun r hr => ?_)
    rcases isa_check_codes segments r hr with h | h <;> rw [h]
    · exact fun h => h1 h.symm
    · exact fun h => h2 h.symm
  have hgs : ∀ sev c, c ≠ "ENV003" → count_code (gs_check segments) sev c = 0 := by
    intro sev c hc
    exact count_code_zero_of_forall _ _ _
      (fun r hr => by rw [gs_check_codes segments r hr]; exact fun h => hc h.symm)
  refine ⟨?_, ?_, ?_⟩ <;>
    rw [hsplit, count_code_append, count_code_append]
  · rw [hisa Severity.ERROR "ENV005" (by decide) (by decide),
      hgs Severity.ERROR "ENV005" (by decide), count_st_env005 segments el h0 hel]
    simp
  · rw [hisa Severity.WARNING "ENV006" (by decide) (by decide),
      hgs Severity.WARNING "ENV006" (by decide), count_st_env006 segments el h0 hel]
    simp
  · rw [hisa Severity.ERROR "ENV004" (by decide) (by decide),
      hgs Severity.ERROR "ENV004" (by decide), count_st_env004 segments h0]

/-- C5 witness: with first ST segment `ST*837*0001*005010X999`, one
ENV005 ERROR citing 837 and one ENV006 WARNING are emitted and no ENV004
ERROR. -/
theorem C5_amended_st_counts_witness :
    count_code (validate_envelopes sample_config [str "ST*837*0001*005010X999"])
      .ERROR "ENV005" = 1 ∧
    count_code (validate_envelopes sample_config [str "ST*837*0001*005010X999"])
      .WARNING "ENV006" = 1 ∧
    count_code (validate_envelopes sample_config [str "ST*837*0001*005010X999"])
      .ERROR "ENV004" = 0 := by
  have h := C5_amended_st_counts sample_config [str "ST*837*0001*005010X999"]
    (pySplit '*' (str "ST*837*0001*005010X999")) rfl (by decide) (by decide)
  exact ⟨h.1.trans (by decide), h.2.1.trans (by decide), h.2.2⟩

/-- C6: the required-segment pass emits exactly the QRE001 ERROR list of
the configured identifiers that are absent from the identifier list, in
configured order; per identifier the number of such findings is zero when
it is present and one per configured occurrence when absent; every
finding is an ERROR naming its identifier, and an empty required list
emits nothing. -/
theorem C6_required_segment_errors (cfg : Config) (found : List Str) :
    validate_required_segments cfg found =
      (cfg.qreRequirements.requiredSegments.filter (fun sid => decide (sid ∉ found))).map
        qre001 ∧
    (∀ sid : Str, count_missing (validate_required_segments cfg found) sid =
      if sid ∈ found then 0
      else (cfg.qreRequirements.requiredSegments.filter (fun x => decide (x = sid))).length) ∧
    (∀ r ∈ validate_required_segments cfg found, r.severity = .ERROR ∧ r.code = "QRE001") ∧
    (cfg.qreRequirements.requiredSegments = [] → validate_required_segments cfg found = []) := by
  refine ⟨validate_required_eq cfg found, count_missing_required cfg found, ?_, ?_⟩
  · intro r hr
    rw [validate_required_eq] at hr
    rcases List.mem_map.mp hr with ⟨sid, _, rfl⟩
    exact ⟨rfl, rfl⟩
  · intro h
    simp [validate_required_segments, h]

/-- C6 witness: with `BHT` absent from `[ISA, GS, ST]` under the sample
configuration exactly one QRE001 ERROR names `BHT`, and the empty
required list emits nothing. -/
theorem C6_required_segment_errors_witness :
    count_missing (validate_required_segments sample_config [str "ISA", str "GS", str "ST"])
      (str "BHT") = 1 ∧
    validate_required_segments empty_config [str "ISA"] = [] := by
  constructor
  · have h := (C6_required_segment_errors sample_config
      [str "ISA", str "GS", str "ST"]).2.1 (str "BHT")
    rw [h]
    decide
  · exact (C6_required_segment_errors empty_config [str "ISA"]).2.2.2 rfl

/-- C7: when the input file cannot be read, analysis short-circuits into
a Report with exactly one finding, a SYS-class ERROR, with
`is_valid = false`, counts (1, 0, 0) and empty `segments_found`. -/
theorem C7_read_failure_report (cfg : Config) (fp e : String) :
    (analyze_file cfg fp (Except.error e)).is_valid = false ∧
    (analyze_file cfg fp (Except.error e)).error_count = 1 ∧
    (analyze_file cfg fp (Except.error e)).warning_count = 0 ∧
    (analyze_file cfg fp (Except.error e)).info_count = 0 ∧
    (analyze_file cfg fp (Except.error e)).segments_found = [] ∧
    (analyze_file cfg fp (Except.error e)).results =
      [{ severity := .ERROR, code := "SYS001",
         message := "Failed to read file: " ++ e }] ∧
    ((analyze_file cfg fp (Except.error e)).results.all
      (fun r => startswith (str "SYS") (str r.code) && decide (r.severity = Severity.ERROR)))
      = true := by
  refine ⟨rfl, rfl, rfl, rfl, rfl, rfl, ?_⟩
  have hres : (analyze_file cfg fp (Except.error e)).results =
      [{ severity := .ERROR, code := "SYS001",
         message := "Failed to read file: " ++ e }] := rfl
  rw [hres]
  simp [List.all, startswith, str]

/-- C8: segment extraction is idempotent on its own output: joining the
extracted records with `~` and extracting again returns the same record
list and the same identifier sequence. -/
theorem C8_extraction_idempotent (content : Str) :
    extract_segments (List.intercalate ['~'] (extract_segments content)) =
      extract_segments content ∧
    extract_seg_ids (extract_segments (List.intercalate ['~'] (extract_segments content))) =
      extract_seg_ids (extract_segments content) := by
  refine ⟨extract_segments_join content, ?_⟩
  rw [extract_segments_join content]

/-- C9: a full analysis run is total: with every Python list-indexing
operation modelled as fallible, the analysis never raises (`none` never
occurs) and agrees with the total semantics; moreover the produced
findings are exactly the concatenation of the four passes, so every pass
evaluates on every input. -/
theorem C9_analysis_total (cfg : Config) (fp : String) (content : Str) :
    analyze_contentE cfg fp content = some (analyze_content cfg fp content) ∧
    (analyze_content cfg fp content).results =
      validate_envelopes cfg (extract_segments content) ++
      validate_required_segments cfg (extract_seg_ids (extract_segments content)) ++
      validate_qre_requirements cfg (extract_segments content) ++
      (detect_query_method (extract_segments content)).2 := by
  constructor
  · simp only [analyze_contentE]
    rw [extract_seg_idsE_eq, Option.some_bind, validate_envelopesE_eq, Option.some_bind,
      validate_qre_requirementsE_eq, Option.map_some']
    rfl
  · rfl

/-- C10: a record that is a bare identifier (no `*`) is its own
identifier, is recorded in the identifier list, and satisfies the
required-segment pass, but matches none of the `*`-suffixed prefix tests
used by the envelope, minimal-data and query-method passes; in
particular a file whose only UM record is bare `UM` still receives the
QRE003 WARNING and a bare `ISA` record still yields the ENV001 ERROR. -/
theorem C10_bare_identifier_records (r : Str) (cfg : Config) (found : List Str)
    (hstar : '*' ∉ r) (hne : r ≠ []) :
    seg_id r = r ∧
    extract_seg_ids [r] = [r] ∧
    count_missing (validate_required_segments cfg (found ++ [r])) r = 0 ∧
    startswith (str "ISA*") r = false ∧
    startswith (str "GS*") r = false ∧
    startswith (str "ST*") r = false ∧
    startswith (str "BHT*") r = false ∧
    startswith (str "UM*") r = false ∧
    startswith (str "HCR*") r = false ∧
    startswith (str "REF*D9*") r = false ∧
    startswith (str "NM1*IL*") r = false ∧
    startswith (str "DMG*") r = false ∧
    count_code (validate_qre_requirements sample_config [str "UM"]) .WARNING "QRE003" = 1 ∧
    count_code (validate_envelopes sample_config [str "ISA"]) .ERROR "ENV001" = 1 := by
  have hid := seg_id_of_no_sep hstar
  refine ⟨hid, ?_, ?_, ?_, ?_, ?_, ?_, ?_, ?_, ?_, ?_, ?_, by decide, by decide⟩
  · simp [extract_seg_ids, hne, hid]
  · rw [count_missing_required, if_pos (List.mem_append_right found (List.mem_singleton.mpr rfl))]
  all_goals exact startswith_false_of_no_sep (by decide) hstar

/-- C10 witness: the bare record `UM` with the sample configuration and a
found list already containing `ISA`. -/
theorem C10_bare_identifier_records_witness :
    seg_id (str "UM") = str "UM" ∧
    extract_seg_ids [str "UM"] = [str "UM"] ∧
    count_missing (validate_required_segments sample_config ([str "ISA"] ++ [str "UM"]))
      (str "UM") = 0 ∧
    startswith (str "ISA*") (str "UM") = false ∧
    startswith (str "GS*") (str "UM") = false ∧
    startswith (str "ST*") (str "UM") = false ∧
    startswith (str "BHT*") (str "UM") = false ∧
    startswith (str "UM*") (str "UM") = false ∧
    startswith (str "HCR*") (str "UM") = false ∧
    startswith (str "REF*D9*") (str "UM") = false ∧
    startswith (str "NM1*IL*") (str "UM") = false ∧
    startswith (str "DMG*") (str "UM") = false ∧
    count_code (validate_qre_requirements sample_config [str "UM"]) .WARNING "QRE003" = 1 ∧
    count_code (validate_envelopes sample_config [str "ISA"]) .ERROR "ENV001" = 1 :=
  C10_bare_identifier_records (str "UM") sample_config [str "ISA"] (by decide) (by decide)

end QreAnalyzer
